import Mathlib

/-!
Verification of the reminder scheduling core of `scanner-bot`
(`src/bots/utils.py` and `src/bots/attbot.py`).

Shallow embedding conventions:
* A Python `datetime` value is modelled by `PyDateTime`: `wall` is the
  wall-clock reading linearized to seconds (an idealized bijection with the
  Gregorian calendar fields, ignoring leap seconds exactly as Python does),
  and `tz` is `utcoffset()` in seconds (`none` = a naive datetime).
* An ISO-8601 timestamp string is modelled by its parse content: a stored
  `remind_time` column is `Option PyDateTime`, where `some d` stands for a
  well-formed ISO string with content `d` and `none` stands for stored text
  that `dateutil.parser.isoparse` rejects (raises on).
* The SQLite table `reminders` is `ReminderDB`: a row list plus the
  AUTOINCREMENT counter; `cursor.lastrowid` is the id of the inserted row.
* The module-global dict `scheduled_reminders` and the spawning of asyncio
  tasks are modelled by `BotState`: an association list from reminder id to
  the spawned `Task` (a spawn token plus the worker parameters), plus the
  running token counter (each `asyncio.create_task` consumes one token).
* External library calls that are not part of this repository
  (`datetime.strptime`, `dateutil.parser.parse`) are taken as parameters of
  the functions that call them; `none` models the call raising.
* Clock readings (`datetime.now(timezone.utc)`) and the outcomes of network
  calls (`bot.fetch_user`, `user.send`, `channel.send`, `bot.get_channel`)
  are environment inputs supplied to the worker (`TaskEnv`).
-/

namespace ScannerBot

/-- Python `datetime`: linearized wall-clock seconds plus optional UTC offset
(seconds); `tz = none` is a naive datetime. -/
structure PyDateTime where
  wall : Int
  tz : Option Int
deriving Repr, DecidableEq

/-- The absolute instant (seconds since epoch) denoted by an aware datetime:
wall reading minus UTC offset.  Only used where the source compares or
subtracts aware datetimes. -/
def PyDateTime.instant (d : PyDateTime) : Int := d.wall - (d.tz.getD 0)

/-- Python `datetime.date()` as a linear day count: the calendar day of the
wall-clock reading (floor division by 86400 seconds). -/
def PyDateTime.pyDate (d : PyDateTime) : Int := Int.fdiv d.wall 86400

/-- Python `dt.astimezone(timezone.utc)`.  An aware datetime keeps its
instant and gets offset 0.  A NAIVE datetime is interpreted as being in the
host's local timezone (offset `localOff` seconds) and then converted. -/
def astimezoneUTC (localOff : Int) (d : PyDateTime) : PyDateTime :=
  match d.tz with
  | some o => ⟨d.wall - o, some 0⟩
  | none => ⟨d.wall - localOff, some 0⟩

/-- Python `dt.replace(tzinfo=timezone.utc)`: keep the wall reading, label it
UTC. -/
def replaceUTC (d : PyDateTime) : PyDateTime := ⟨d.wall, some 0⟩

/-- `datetime.now(timezone.utc)` for a clock reading `t` (an instant):
aware, offset 0, wall = instant. -/
def nowUTC (t : Int) : PyDateTime := ⟨t, some 0⟩

/-- A row of the `reminders` table (utils.py schema:
id, user_id, channel_id, message, remind_time, dm). -/
structure Row where
  id : Nat
  user_id : Int
  channel_id : Int
  message : String
  remind_time : Option PyDateTime
  dm : Int
deriving Repr, DecidableEq

/-- The SQLite database: the `reminders` rows plus the AUTOINCREMENT
counter (next id to be assigned). -/
structure ReminderDB where
  rows : List Row
  nextId : Nat
deriving Repr, DecidableEq

/-- `init_db`: creates the empty table (AUTOINCREMENT starts at 1). -/
def init_db : ReminderDB := ⟨[], 1⟩

/-- `get_reminders` (utils.py): SELECT all rows. -/
def get_reminders (db : ReminderDB) : List Row := db.rows

/-- `get_user_reminders` (utils.py): SELECT rows WHERE user_id = ?. -/
def get_user_reminders (uid : Int) (db : ReminderDB) : List Row :=
  db.rows.filter (fun r => r.user_id == uid)

/-- `add_reminder` (utils.py): normalize `remind_time` to a UTC-aware ISO
string via `astimezone(timezone.utc)` and INSERT.  The argument is the
datetime content (a string argument is modelled by its isoparse content, per
the file conventions).  Note the source performs NO future-only check here.
Returns the updated db and `lastrowid`. -/
def add_reminder (localOff : Int) (user_id channel_id : Int) (message : String)
    (remind_time : PyDateTime) (dm : Bool) (db : ReminderDB) : ReminderDB × Nat :=
  let rtUTC := astimezoneUTC localOff remind_time
  let rid := db.nextId
  (⟨db.rows ++ [⟨rid, user_id, channel_id, message, some rtUTC, if dm then 1 else 0⟩],
    rid + 1⟩, rid)

/-- `delete_reminder` (utils.py): DELETE WHERE id = ? AND user_id = ?;
returns whether a row was removed. -/
def delete_reminder (reminder_id : Nat) (user_id : Int) (db : ReminderDB) :
    ReminderDB × Bool :=
  let rows' := db.rows.filter (fun r => !(r.id == reminder_id && r.user_id == user_id))
  (⟨rows', db.nextId⟩, rows'.length < db.rows.length)

/-- The parameters `schedule_reminder` hands to `reminder_task`.
`remind_time` is either the raw DB string (modelled by its isoparse content,
`none` if unparseable) or the datetime object from the creation path. -/
structure WorkerParams where
  user_id : Int
  channel_id : Int
  message : String
  remind_time : Option PyDateTime
  dm : Int
deriving Repr, DecidableEq

/-- An asyncio task spawned by `schedule_reminder`: its creation token and
the worker parameters it runs `reminder_task` with. -/
structure Task where
  token : Nat
  params : WorkerParams
deriving Repr, DecidableEq

/-- The process-global mutable state of attbot.py:
`scheduled_reminders` (dict reminder id -> task) and the supply of task
tokens (counts `asyncio.create_task` calls). -/
structure BotState where
  registry : List (Nat × Task)
  nextTask : Nat
deriving Repr, DecidableEq

/-- `rid in scheduled_reminders`. -/
def hasKey (l : List (Nat × Task)) (k : Nat) : Bool := l.any (fun p => p.1 == k)

/-- Number of registry entries held under key `k`. -/
def countKey (l : List (Nat × Task)) (k : Nat) : Nat :=
  (l.filter (fun p => p.1 == k)).length

/-- `schedule_reminder` (attbot.py:119): no-op when the id is already
present; otherwise `asyncio.create_task(reminder_task(...))` and insert the
handle. -/
def schedule_reminder (rid : Nat) (ps : WorkerParams) (st : BotState) : BotState :=
  if hasKey st.registry rid then st
  else ⟨st.registry ++ [(rid, ⟨st.nextTask, ps⟩)], st.nextTask + 1⟩

/-- `scheduled_reminders.pop(rid, None)`. -/
def popKey (rid : Nat) (st : BotState) : BotState :=
  ⟨st.registry.filter (fun p => !(p.1 == rid)), st.nextTask⟩

/-- One iteration of the reconciliation loop of `on_ready`
(attbot.py:154-156): unpack the row and `schedule_reminder(...)` it. -/
def sched_step (s : BotState) (r : Row) : BotState :=
  schedule_reminder r.id
    ⟨r.user_id, r.channel_id, r.message, r.remind_time, r.dm⟩ s

/-- The reconciliation loop of `on_ready` (attbot.py:153-157):
for each persisted row, `schedule_reminder(id, user_id, channel_id, message,
remind_time, dm)` with the raw stored time string. -/
def load_reminders (db : ReminderDB) (st : BotState) : BotState :=
  db.rows.foldl sched_step st

/-- Process state seen by `on_ready`: bot state plus the module-global
`reminders_loaded` flag. -/
structure ProcState where
  bot : BotState
  reminders_loaded : Bool
deriving Repr, DecidableEq

/-- `on_ready` (reminder-relevant part): load all reminders once per process
lifetime, guarded by `reminders_loaded`. -/
def on_ready (db : ReminderDB) (p : ProcState) : ProcState :=
  if p.reminders_loaded then p else ⟨load_reminders db p.bot, true⟩

/-- The five explicit formats tried by `ReminderModal.parse_datetime`
(attbot.py:440-446). -/
def explicitFormats : List String :=
  ["%Y-%m-%d %H:%M", "%Y/%m/%d %H:%M", "%Y.%m.%d %H:%M", "%Y%m%d %H:%M",
   "%Y-%m-%dT%H:%M"]

/-- The `for fmt in formats: try strptime ... except ValueError: continue`
loop.  `strp fmt s` is `datetime.strptime(s, fmt)` (external stdlib call,
taken as a parameter): `some w` = a naive datetime with wall reading `w`,
`none` = ValueError.  Returns the first success. -/
def tryFormats (strp : String → String → Option Int) :
    List String → String → Option Int
  | [], _ => none
  | f :: rest, s =>
    match strp f s with
    | some w => some w
    | none => tryFormats strp rest s

/-- `ReminderModal.parse_datetime` (attbot.py:436-468).  `strp` models
`datetime.strptime`; `fb` models `dateutil.parser.parse` (`none` = it
raised).  An explicit-format hit is naive and gets `replace(tzinfo=utc)`;
the fallback result is assumed UTC when naive and converted with
`astimezone(timezone.utc)` when aware. -/
def parse_datetime (strp : String → String → Option Int)
    (fb : String → Option PyDateTime) (input_str : String) : Option PyDateTime :=
  match tryFormats strp explicitFormats input_str with
  | some w => some (replaceUTC ⟨w, none⟩)
  | none =>
    match fb input_str with
    | none => none
    | some dt =>
      match dt.tz with
      | none => some (replaceUTC dt)
      | some _ => some (astimezoneUTC 0 dt)

/-- Python `str.strip()` (no arguments): drop leading and trailing
whitespace.  Implemented over the character list so it evaluates by kernel
reduction. -/
def pyStrip (s : String) : String :=
  ⟨((s.data.dropWhile Char.isWhitespace).reverse.dropWhile
      Char.isWhitespace).reverse⟩

/-- Python `str.lower()` restricted to the ASCII range, matching
`Char.toLower`; the `dm` field values it is applied to ("yes"/"no" etc.)
are ASCII. -/
def pyLower (s : String) : String := ⟨s.data.map Char.toLower⟩

/-- Outcome of `ReminderModal.on_submit`.  `crashed` models an uncaught
exception escaping the callback (`parser.isoparse` raising on a stored row
of this owner); every other constructor is one of the source's explicit
early returns or the success path. -/
inductive SubmitOutcome where
  | invalidFormat
  | pastTime
  | crashed
  | alreadyToday
  | created (rid : Nat)
deriving Repr, DecidableEq

/-- The list comprehension at attbot.py:502-505:
`[r for r in get_reminders() if r[1] == uid and parser.isoparse(r[4]).date() == today]`.
`parser.isoparse` is only reached for rows of this owner (Python `and`
short-circuits); a stored time it cannot parse raises, modelled as
`Except.error`. -/
def rowsTodayE (uid : Int) (today : Int) : List Row → Except Unit (List Row)
  | [] => .ok []
  | r :: rs =>
    if r.user_id = uid then
      match r.remind_time with
      | none => .error ()
      | some dt =>
        (rowsTodayE uid today rs).map
          (fun l => if dt.pyDate = today then r :: l else l)
    else rowsTodayE uid today rs

/-- `ReminderModal.on_submit` (attbot.py:471-535).  `strp`/`fb` parametrize
`parse_datetime` as above; `now1` is the clock reading at the future-only
check (line 492) and `now2` the reading taken for `today` (line 501);
`dateVal`, `msgVal`, `dmVal` are the raw modal field values.  Returns the
outcome together with the database and bot state after the call. -/
def on_submit (strp : String → String → Option Int)
    (fb : String → Option PyDateTime) (localOff : Int) (now1 now2 : Int)
    (uid chan : Int) (dateVal msgVal dmVal : String)
    (db : ReminderDB) (st : BotState) : SubmitOutcome × ReminderDB × BotState :=
  let date_text := pyStrip dateVal
  let message_text := pyStrip msgVal
  let dm_text := pyStrip dmVal
  match parse_datetime strp fb date_text with
  | none => (.invalidFormat, db, st)
  | some remind_time =>
    if remind_time.instant ≤ (nowUTC now1).instant then (.pastTime, db, st)
    else
      let dm_value := pyLower dm_text ∈ ["yes", "true", "1", "y"]
      let today := (nowUTC now2).pyDate
      match rowsTodayE uid today db.rows with
      | .error _ => (.crashed, db, st)
      | .ok existing_today =>
        if existing_today ≠ [] then (.alreadyToday, db, st)
        else
          let (db', rid) :=
            add_reminder localOff uid chan message_text remind_time dm_value db
          let st' := schedule_reminder rid
            ⟨uid, chan, message_text, some remind_time,
              if dm_value then 1 else 0⟩ st
          (.created rid, db', st')

/-- The parsing prologue of `reminder_task` (attbot.py:177-187): a string is
isoparsed (`none` = the stored text raises, caught and logged), and a naive
result is relabelled UTC via `replace(tzinfo=timezone.utc)`. -/
def parse_remind_time : Option PyDateTime → Option PyDateTime
  | none => none
  | some d => some (if d.tz = none then replaceUTC d else d)

/-- How the chunked wait loop of `reminder_task` (attbot.py:191-201) ends. -/
inductive LoopExit where
  | woke (i : Nat)
  | cancelled (k : Nat)
  | fuelOut
deriving Repr, DecidableEq

/-- The wait loop of `reminder_task` against an arbitrary sequence of clock
readings: at reading `i`, `remaining = remind_instant - clock i`; the loop
breaks when `remaining <= 0`, otherwise it sleeps
`min(remaining, 3600)` seconds, during which a cancellation signal
(`cancelAt = some i`) may arrive.  `fuel` bounds the number of iterations
examined (an artifact of the embedding only: with an arbitrary clock the
source loop need not terminate). -/
def wait_loop (cancelAt : Option Nat) (clock : Nat → Int) (remindI : Int) :
    Nat → Nat → LoopExit
  | 0, _ => .fuelOut
  | fuel + 1, i =>
    if remindI - clock i ≤ 0 then .woke i
    else if cancelAt = some i then .cancelled i
    else wait_loop cancelAt clock remindI fuel (i + 1)

/-- The same wait loop under the idealized exact clock (each
`asyncio.sleep(c)` advances the clock by exactly `c` seconds): the list of
successive sleep durations `min(remaining, 3600)` executed before waking,
for a reminder instant `remind` and a start reading `now`. -/
def sleep_chunks (remind : Int) (now : Int) : List Int :=
  if remind - now ≤ 0 then []
  else
    min (remind - now) 3600 :: sleep_chunks remind (now + min (remind - now) 3600)
termination_by (remind - now).toNat
decreasing_by
  rename_i h
  rw [not_le] at h
  have h1 : (0 : Int) < min (remind - now) 3600 := lt_min h (by norm_num)
  omega

/-- Exit of the exact-clock wait loop when a cancellation signal may be
delivered during the `k`-th sleep (attbot.py:198-202: the
`asyncio.CancelledError` handler returns from the task). -/
inductive ChunkExit where
  | woke
  | cancelled (k : Nat)
deriving Repr, DecidableEq

/-- The exact-clock wait loop with a cancellation schedule: `cancelAt = some
k` delivers `asyncio.CancelledError` during the `k`-th sleep (0-based).
`k` is the index of the sleep about to be executed. -/
def sleep_loop_cancel (cancelAt : Option Nat) (remind : Int) (now : Int)
    (k : Nat) : ChunkExit :=
  if remind - now ≤ 0 then .woke
  else if cancelAt = some k then .cancelled k
  else sleep_loop_cancel cancelAt remind (now + min (remind - now) 3600) (k + 1)
termination_by (remind - now).toNat
decreasing_by
  rename_i h _
  rw [not_le] at h
  have h1 : (0 : Int) < min (remind - now) 3600 := lt_min h (by norm_num)
  omega

/-- Environment of one `reminder_task` run: the successive
`datetime.now(timezone.utc)` readings, the cancellation schedule, the store
contents its wake-time `get_reminders()` call observes, and the outcomes of
the messaging-layer calls (`True` = the call returns normally, `False` =
it raises / `get_channel` returns `None`). -/
structure TaskEnv where
  clock : Nat → Int
  cancelAt : Option Nat
  dbAtWake : ReminderDB
  fetchUserOk : Bool
  channelFound : Bool
  sendOk : Bool

/-- How one `reminder_task` run ends (attbot.py:171-232). -/
inductive TaskOutcome where
  /-- attbot.py:185-187 — `remind_time` failed to parse; logged, return. -/
  | parseFailed
  /-- attbot.py:200-202 — `CancelledError` during the `k`-th sleep. -/
  | cancelled (k : Nat)
  /-- embedding artifact: the fuel bound of `wait_loop` was reached. -/
  | fuelOut
  /-- attbot.py:205-206 — the row no longer exists at wake; silent return. -/
  | rowGone
  /-- attbot.py:209-211 — the staleness (clock-skew) guard fired. -/
  | stale
  /-- delivery succeeded and the row was deleted (attbot.py:215-225). -/
  | delivered
  /-- `dm` falsy and `bot.get_channel` returned `None`: nothing is sent,
  yet the row is still deleted (attbot.py:220-225). -/
  | deliveredNoChannel
  /-- `bot.fetch_user` / `user.send` / `channel.send` raised: caught by the
  outer `except Exception` (attbot.py:227-228), logged, not propagated. -/
  | transportError
deriving Repr, DecidableEq

/-- Result of one `reminder_task` run: its outcome, the store after the run
(`env.dbAtWake` unless the worker deleted its row), and the bot state after
the `finally` block popped the task's id (attbot.py:231-232). -/
structure TaskResult where
  outcome : TaskOutcome
  db : ReminderDB
  st : BotState
deriving Repr, DecidableEq

/-- `reminder_task` (attbot.py:171-232), for worker id `rid` with parameters
`ps`, running in environment `env` from bot state `st`.  Mirrors the
source's control flow: parse the time (failure logged, return); chunked
wait loop (cancellation returns); re-fetch — row gone means silent return;
staleness guard; fetch the user and send (a raise lands in the outer
`except Exception`, which logs and falls through to `finally`); on a
completed send (or a missing channel), delete the row owner-scoped.  The
`finally` block always removes `rid` from `scheduled_reminders`. -/
def reminder_task (fuel : Nat) (env : TaskEnv) (rid : Nat) (ps : WorkerParams)
    (st : BotState) : TaskResult :=
  match parse_remind_time ps.remind_time with
  | none => ⟨.parseFailed, env.dbAtWake, popKey rid st⟩
  | some rt =>
    match wait_loop env.cancelAt env.clock rt.instant fuel 0 with
    | .fuelOut => ⟨.fuelOut, env.dbAtWake, popKey rid st⟩
    | .cancelled k => ⟨.cancelled k, env.dbAtWake, popKey rid st⟩
    | .woke i =>
      if ¬ (get_reminders env.dbAtWake).any (fun r => r.id == rid) then
        ⟨.rowGone, env.dbAtWake, popKey rid st⟩
      else
        let now := nowUTC (env.clock (i + 1))
        if now.instant < rt.instant - 2 then ⟨.stale, env.dbAtWake, popKey rid st⟩
        else if ¬ env.fetchUserOk then
          ⟨.transportError, env.dbAtWake, popKey rid st⟩
        else if ps.dm ≠ 0 then
          if env.sendOk then
            ⟨.delivered, (delete_reminder rid ps.user_id env.dbAtWake).1,
              popKey rid st⟩
          else ⟨.transportError, env.dbAtWake, popKey rid st⟩
        else
          if env.channelFound then
            if env.sendOk then
              ⟨.delivered, (delete_reminder rid ps.user_id env.dbAtWake).1,
                popKey rid st⟩
            else ⟨.transportError, env.dbAtWake, popKey rid st⟩
          else
            ⟨.deliveredNoChannel, (delete_reminder rid ps.user_id env.dbAtWake).1,
              popKey rid st⟩

/-! ### Registry lemmas (attbot.py:119-133, 151-157) -/

theorem countKey_append (l : List (Nat × Task)) (p : Nat × Task) (k : Nat) :
    countKey (l ++ [p]) k = countKey l k + (if p.1 = k then 1 else 0) := by
  by_cases h : p.1 = k
  · simp [countKey, List.filter_append, List.filter_cons, h]
  · simp [countKey, List.filter_append, List.filter_cons, h]

theorem hasKey_iff_countKey_pos (l : List (Nat × Task)) (k : Nat) :
    hasKey l k = true ↔ 0 < countKey l k := by
  induction l with
  | nil => simp [hasKey, countKey]
  | cons p rest ih =>
    by_cases h : p.1 = k
    · simp [hasKey, countKey, List.filter_cons, h]
    · simpa [hasKey, countKey, List.filter_cons, h] using ih

theorem schedule_noop (rid : Nat) (ps : WorkerParams) (st : BotState)
    (h : hasKey st.registry rid = true) : schedule_reminder rid ps st = st := by
  unfold schedule_reminder
  rw [if_pos h]

theorem hasKey_schedule_self (rid : Nat) (ps : WorkerParams) (st : BotState) :
    hasKey (schedule_reminder rid ps st).registry rid = true := by
  unfold schedule_reminder
  by_cases h : hasKey st.registry rid = true
  · rw [if_pos h]
    exact h
  · rw [if_neg h]
    simp [hasKey]

theorem hasKey_schedule_mono (rid : Nat) (ps : WorkerParams) (st : BotState)
    (k : Nat) (h : hasKey st.registry k = true) :
    hasKey (schedule_reminder rid ps st).registry k = true := by
  unfold schedule_reminder
  by_cases hr : hasKey st.registry rid = true
  · rw [if_pos hr]
    exact h
  · rw [if_neg hr]
    simp only [hasKey, List.any_append]
    simp only [hasKey] at h
    simp [h]

theorem countKey_schedule_le_one (rid : Nat) (ps : WorkerParams) (st : BotState)
    (h : ∀ k, countKey st.registry k ≤ 1) :
    ∀ k, countKey (schedule_reminder rid ps st).registry k ≤ 1 := by
  intro k
  unfold schedule_reminder
  by_cases hr : hasKey st.registry rid = true
  · rw [if_pos hr]
    exact h k
  · rw [if_neg hr]
    show countKey (st.registry ++ [(rid, ⟨st.nextTask, ps⟩)]) k ≤ 1
    rw [countKey_append]
    by_cases hk : rid = k
    · subst hk
      have h0 : countKey st.registry rid = 0 := by
        by_contra hne
        exact hr ((hasKey_iff_countKey_pos _ _).mpr (Nat.pos_of_ne_zero hne))
      simp [h0]
    · simpa [hk] using h k

theorem hasKey_foldl_mono (rows : List Row) (st : BotState) (k : Nat)
    (h : hasKey st.registry k = true) :
    hasKey (rows.foldl sched_step st).registry k = true := by
  induction rows generalizing st with
  | nil => simpa
  | cons r rs ih =>
    exact ih _ (hasKey_schedule_mono _ _ _ _ h)

theorem hasKey_foldl_of_mem (rows : List Row) (st : BotState) (r : Row)
    (hr : r ∈ rows) :
    hasKey (rows.foldl sched_step st).registry r.id = true := by
  induction rows generalizing st with
  | nil => cases hr
  | cons r0 rs ih =>
    rcases List.mem_cons.mp hr with h | h
    · subst h
      simp only [List.foldl_cons]
      exact hasKey_foldl_mono rs _ r.id (hasKey_schedule_self _ _ _)
    · exact ih _ h

theorem hasKey_load_of_mem (db : ReminderDB) (st : BotState) (r : Row)
    (hr : r ∈ db.rows) :
    hasKey (load_reminders db st).registry r.id = true :=
  hasKey_foldl_of_mem db.rows st r hr

theorem countKey_foldl_le_one (rows : List Row) (st : BotState)
    (h : ∀ k, countKey st.registry k ≤ 1) :
    ∀ k, countKey (rows.foldl sched_step st).registry k ≤ 1 := by
  induction rows generalizing st with
  | nil => simpa
  | cons r rs ih =>
    exact ih _ (countKey_schedule_le_one _ _ _ h)

theorem foldl_sched_noop (rows : List Row) (st : BotState)
    (h : ∀ r ∈ rows, hasKey st.registry r.id = true) :
    rows.foldl sched_step st = st := by
  induction rows with
  | nil => simp
  | cons r rs ih =>
    simp only [List.foldl_cons]
    rw [show sched_step st r = st from
      schedule_noop _ _ _ (h r (List.mem_cons_self r rs))]
    exact ih (fun r' hr' => h r' (List.mem_cons_of_mem r hr'))

theorem load_iterate_eq (db : ReminderDB) (st : BotState) (n : Nat)
    (hn : 1 ≤ n) :
    (load_reminders db)^[n] st = load_reminders db st := by
  induction n with
  | zero => omega
  | succ m ih =>
    rcases Nat.eq_or_lt_of_le hn with h1 | h1
    · simp [← h1]
    · have hm : 1 ≤ m := by omega
      rw [Function.iterate_succ_apply', ih hm]
      exact foldl_sched_noop db.rows _
        (fun r hr => hasKey_load_of_mem db st r hr)

/-- C5: the registry's `schedule_reminder` is idempotent — scheduling an id
already present in `scheduled_reminders` is a no-op — and replaying the
whole persisted set through the `on_ready` reconciliation loop any number
of times (`n ≥ 1`, from an empty registry) produces exactly one live worker
per persisted id, never two. -/
theorem C5_schedule_idempotent_one_worker_per_id (db : ReminderDB)
    (c n k : Nat) (hn : 1 ≤ n) (hk : ∃ r ∈ db.rows, r.id = k) :
    (∀ ps st, hasKey st.registry k = true → schedule_reminder k ps st = st) ∧
    countKey ((load_reminders db)^[n] ⟨[], c⟩).registry k = 1 := by
  refine ⟨fun ps st h => schedule_noop k ps st h, ?_⟩
  rw [load_iterate_eq db _ n hn]
  obtain ⟨r, hr, hid⟩ := hk
  have hpres : hasKey (load_reminders db ⟨[], c⟩).registry k = true := by
    rw [← hid]
    exact hasKey_load_of_mem db _ r hr
  have hle : countKey (load_reminders db ⟨[], c⟩).registry k ≤ 1 :=
    countKey_foldl_le_one db.rows _ (fun k' => by simp [countKey]) k
  have hpos := (hasKey_iff_countKey_pos _ _).mp hpres
  omega

/-- Witness for C5: a one-row store, replayed twice through reconciliation,
holds exactly one worker for the row's id. -/
theorem C5_witness :
    (∀ ps st, hasKey st.registry 3 = true → schedule_reminder 3 ps st = st) ∧
    countKey ((load_reminders
      ⟨[⟨3, 1, 2, "m", some ⟨0, some 0⟩, 1⟩], 4⟩)^[2] ⟨[], 0⟩).registry 3 = 1 :=
  C5_schedule_idempotent_one_worker_per_id
    ⟨[⟨3, 1, 2, "m", some ⟨0, some 0⟩, 1⟩], 4⟩ 0 2 3 (by decide)
    ⟨⟨3, 1, 2, "m", some ⟨0, some 0⟩, 1⟩, by simp, rfl⟩

/-! ### Wait-loop lemmas (attbot.py:191-201) -/

theorem sleep_chunks_of_nonpos (remind now : Int) (h : remind - now ≤ 0) :
    sleep_chunks remind now = [] := by
  rw [sleep_chunks]
  simp [h]

theorem sleep_chunks_of_pos (remind now : Int) (h : 0 < remind - now) :
    sleep_chunks remind now =
      min (remind - now) 3600 ::
        sleep_chunks remind (now + min (remind - now) 3600) := by
  rw [sleep_chunks]
  rw [if_neg (not_le.mpr h)]

theorem sleep_chunks_mem (remind now c : Int)
    (hc : c ∈ sleep_chunks remind now) : 0 < c ∧ c ≤ 3600 := by
  by_cases h : remind - now ≤ 0
  · rw [sleep_chunks_of_nonpos remind now h] at hc
    cases hc
  · rw [not_le] at h
    rw [sleep_chunks_of_pos remind now h] at hc
    rcases List.mem_cons.mp hc with h1 | h1
    · subst h1
      exact ⟨lt_min h (by norm_num), min_le_right _ _⟩
    · exact sleep_chunks_mem remind (now + min (remind - now) 3600) c h1
termination_by (remind - now).toNat
decreasing_by
  rw [not_le] at h
  have h1 : (0 : Int) < min (remind - now) 3600 := lt_min h (by norm_num)
  omega

theorem sleep_chunks_two_hours (now : Int) :
    sleep_chunks (now + 7200) now = [3600, 3600] := by
  rw [sleep_chunks_of_pos _ _ (by omega)]
  rw [show min (now + 7200 - now) 3600 = 3600 from by omega]
  rw [sleep_chunks_of_pos _ _ (by omega)]
  rw [show min (now + 7200 - (now + 3600)) 3600 = 3600 from by omega]
  rw [sleep_chunks_of_nonpos _ _ (by omega)]

theorem sleep_loop_cancel_hits (remind now : Int) (j k : Nat)
    (hk : k < (sleep_chunks remind now).length) :
    sleep_loop_cancel (some (j + k)) remind now j = .cancelled (j + k) := by
  by_cases h : remind - now ≤ 0
  · rw [sleep_chunks_of_nonpos remind now h] at hk
    simp at hk
  · rw [not_le] at h
    rw [sleep_loop_cancel]
    rw [if_neg (not_le.mpr h)]
    cases k with
    | zero => simp
    | succ m =>
      rw [if_neg (fun hc => absurd (Option.some.inj hc) (by omega))]
      have hk' : m < (sleep_chunks remind (now + min (remind - now) 3600)).length := by
        rw [sleep_chunks_of_pos remind now h] at hk
        simpa using hk
      have hrec := sleep_loop_cancel_hits remind
        (now + min (remind - now) 3600) (j + 1) m hk'
      rw [show j + 1 + m = j + (m + 1) from by omega] at hrec
      exact hrec
termination_by (remind - now).toNat
decreasing_by
  rw [not_le] at h
  have h1 : (0 : Int) < min (remind - now) 3600 := lt_min h (by norm_num)
  omega


/-- C7: the worker's wait loop proceeds immediately (no sleep) when
`remaining = fire_at - now <= 0`; otherwise every executed sleep is a
bounded chunk `min(remaining, MAX_CHUNK)` with `MAX_CHUNK = 3600 s`
(so each chunk is positive and at most one hour); for
`fire_at = now + 2h` the worker sleeps in exactly two chunks of one hour
(hence at least two); and a cancellation signal scheduled during any chunk
`k` of that wait is observed there, ending the loop at that chunk
boundary. -/
theorem C7_chunked_wait_loop (remind now : Int) (k : Nat)
    (hk : k < (sleep_chunks (now + 7200) now).length) :
    (remind - now ≤ 0 → sleep_chunks remind now = []) ∧
    (∀ c ∈ sleep_chunks remind now, 0 < c ∧ c ≤ 3600) ∧
    sleep_chunks (now + 7200) now = [3600, 3600] ∧
    sleep_loop_cancel (some k) (now + 7200) now 0 = .cancelled k := by
  refine ⟨fun h => sleep_chunks_of_nonpos remind now h,
    fun c hc => sleep_chunks_mem remind now c hc,
    sleep_chunks_two_hours now, ?_⟩
  have := sleep_loop_cancel_hits (now + 7200) now 0 k hk
  simpa using this

/-- Witness for C7 at `now = 0`, cancellation during the second chunk. -/
theorem C7_witness :
    ((0 : Int) - 0 ≤ 0 → sleep_chunks 0 0 = []) ∧
    (∀ c ∈ sleep_chunks 0 0, 0 < c ∧ c ≤ 3600) ∧
    sleep_chunks ((0 : Int) + 7200) 0 = [3600, 3600] ∧
    sleep_loop_cancel (some 1) ((0 : Int) + 7200) 0 0 = .cancelled 1 :=
  C7_chunked_wait_loop 0 0 1
    (by rw [sleep_chunks_two_hours]; norm_num)

/-- C9: `parse_datetime` attempts the fixed list of explicit formats first —
a hit fully determines the result and the permissive fallback is never
consulted; every successful result carries UTC offset zero, a fallback
result with no explicit offset is assumed UTC (wall reading kept), one with
an explicit offset is converted to UTC preserving its instant; and when
both the explicit formats and the fallback fail, the result is the
ParseError value `none` rather than an exception. -/
theorem C9_parse_datetime_utc (strp : String → String → Option Int)
    (fb : String → Option PyDateTime) (s : String) :
    (∀ w, tryFormats strp explicitFormats s = some w →
      ∀ fb2 : String → Option PyDateTime,
        parse_datetime strp fb2 s = some (replaceUTC ⟨w, none⟩)) ∧
    (∀ d, parse_datetime strp fb s = some d → d.tz = some 0) ∧
    (tryFormats strp explicitFormats s = none →
      ∀ dt, fb s = some dt →
        (dt.tz = none → parse_datetime strp fb s = some ⟨dt.wall, some 0⟩) ∧
        (∀ o, dt.tz = some o →
          parse_datetime strp fb s = some ⟨dt.wall - o, some 0⟩ ∧
          PyDateTime.instant ⟨dt.wall - o, some 0⟩ = dt.instant)) ∧
    (tryFormats strp explicitFormats s = none → fb s = none →
      parse_datetime strp fb s = none) := by
  refine ⟨?_, ?_, ?_, ?_⟩
  · intro w hw fb2
    simp [parse_datetime, hw]
  · intro d hd
    unfold parse_datetime at hd
    split at hd
    · simp only [Option.some.injEq] at hd
      rw [← hd]
      rfl
    · split at hd
      · cases hd
      · split at hd
        · simp only [Option.some.injEq] at hd
          rw [← hd]
          rfl
        · rename_i dt0 o0 hdt0
          simp only [Option.some.injEq] at hd
          rw [← hd]
          simp [astimezoneUTC, hdt0]
  · intro htf dt hfb
    constructor
    · intro hdt
      simp [parse_datetime, htf, hfb, hdt, replaceUTC]
    · intro o hdt
      constructor
      · simp [parse_datetime, htf, hfb, hdt, astimezoneUTC]
      · simp [PyDateTime.instant, hdt]
  · intro htf hfb
    simp [parse_datetime, htf, hfb]

/-- Witness for C9: a format hit ignores the fallback; an offset-carrying
fallback result is converted to UTC; unparseable text yields `none`. -/
theorem C9_witness :
    parse_datetime (fun f t => if f = "%Y-%m-%d %H:%M" && t = "x" then some 42 else none)
      (fun _ => none) "x" = some (replaceUTC ⟨42, none⟩) ∧
    parse_datetime (fun _ _ => none)
      (fun t => if t = "y" then some ⟨100, some 30⟩ else none) "y"
      = some ⟨100 - 30, some 0⟩ ∧
    parse_datetime (fun _ _ => none) (fun _ => none) "zzz" = none :=
  ⟨(C9_parse_datetime_utc
      (fun f t => if f = "%Y-%m-%d %H:%M" && t = "x" then some 42 else none)
      (fun _ => none) "x").1 42 (by decide) (fun _ => none),
   (((C9_parse_datetime_utc (fun _ _ => none)
      (fun t => if t = "y" then some ⟨100, some 30⟩ else none) "y").2.2.1
      (by decide) ⟨100, some 30⟩ (by decide)).2 30 rfl).1,
   (C9_parse_datetime_utc (fun _ _ => none) (fun _ => none) "zzz").2.2.2
      (by decide) rfl⟩


/-! ### Creation-path lemmas (attbot.py:471-535, utils.py:87-119) -/

theorem rowsTodayE_isOk (uid today : Int) (rows : List Row)
    (hall : ∀ r ∈ rows, r.user_id = uid → r.remind_time ≠ none) :
    ∃ l, rowsTodayE uid today rows = .ok l := by
  induction rows with
  | nil => exact ⟨[], rfl⟩
  | cons r0 rs ih =>
    obtain ⟨l, hl⟩ := ih (fun r hr hu => hall r (List.mem_cons_of_mem r0 hr) hu)
    by_cases hu0 : r0.user_id = uid
    · cases hrt0 : r0.remind_time with
      | none => exact absurd hrt0 (hall r0 (List.mem_cons_self r0 rs) hu0)
      | some dt0 =>
        refine ⟨if dt0.pyDate = today then r0 :: l else l, ?_⟩
        simp [rowsTodayE, hu0, hrt0, hl, Except.map]
    · refine ⟨l, ?_⟩
      simpa [rowsTodayE, hu0] using hl

theorem rowsTodayE_ne_nil (uid today : Int) (rows : List Row)
    (hall : ∀ r ∈ rows, r.user_id = uid → r.remind_time ≠ none)
    (r : Row) (hr : r ∈ rows) (hu : r.user_id = uid)
    (dt : PyDateTime) (hrt : r.remind_time = some dt) (hd : dt.pyDate = today) :
    ∃ l, rowsTodayE uid today rows = .ok l ∧ l ≠ [] := by
  induction rows with
  | nil => cases hr
  | cons r0 rs ih =>
    have hallrs : ∀ r' ∈ rs, r'.user_id = uid → r'.remind_time ≠ none :=
      fun r' hr' hu' => hall r' (List.mem_cons_of_mem r0 hr') hu'
    by_cases hu0 : r0.user_id = uid
    · cases hrt0 : r0.remind_time with
      | none => exact absurd hrt0 (hall r0 (List.mem_cons_self r0 rs) hu0)
      | some dt0 =>
        rcases List.mem_cons.mp hr with he | hmem
        · obtain ⟨l, hl⟩ := rowsTodayE_isOk uid today rs hallrs
          subst he
          refine ⟨r :: l, ?_, by simp⟩
          simp [rowsTodayE, hu0, hrt, hl, hd, Except.map]
        · obtain ⟨l, hl, hne⟩ := ih hallrs hmem
          refine ⟨if dt0.pyDate = today then r0 :: l else l, ?_, ?_⟩
          · simp [rowsTodayE, hu0, hrt0, hl, Except.map]
          · by_cases hc : dt0.pyDate = today
            · simp [hc]
            · simpa [hc] using hne
    · have hmem : r ∈ rs := by
        rcases List.mem_cons.mp hr with he | hmem
        · subst he
          exact absurd hu hu0
        · exact hmem
      obtain ⟨l, hl, hne⟩ := ih hallrs hmem
      refine ⟨l, ?_, hne⟩
      simpa [rowsTodayE, hu0] using hl

/-- C2 counterexample: the store's create (`add_reminder`) accepts and
persists a fire instant (0) that is already in the past at a creation-time
clock of 100: no error is raised and the row is inserted, so the store does
accept a past instant. -/
theorem C2_counterexample :
    PyDateTime.instant ⟨0, some 0⟩ < 100 ∧
    (add_reminder 0 1 2 "m" ⟨0, some 0⟩ true init_db).1.rows =
      [⟨1, 1, 2, "m", some ⟨0, some 0⟩, 1⟩] ∧
    (add_reminder 0 1 2 "m" ⟨0, some 0⟩ true init_db).2 = 1 :=
  ⟨by norm_num [PyDateTime.instant], rfl, rfl⟩

/-- C2 (amended): the future-only check lives in the creation handler
`ReminderModal.on_submit`, not in the store: for every creation request
whose parsed `fire_at` is not strictly after the handler's clock reading,
the handler rejects it (the `pastTime` early return) before calling the
store, so nothing is persisted and nothing is scheduled; the store's own
create operation performs no validation and unconditionally inserts. -/
theorem C2_handler_rejects_past (strp : String → String → Option Int)
    (fb : String → Option PyDateTime) (localOff now1 now2 uid chan : Int)
    (dv mv dmv : String) (db : ReminderDB) (st : BotState) (rt : PyDateTime)
    (hp : parse_datetime strp fb (pyStrip dv) = some rt)
    (hpast : rt.instant ≤ (nowUTC now1).instant) :
    on_submit strp fb localOff now1 now2 uid chan dv mv dmv db st
      = (.pastTime, db, st) ∧
    ∀ (lo u c : Int) (m : String) (t : PyDateTime) (d : Bool) (db' : ReminderDB),
      (add_reminder lo u c m t d db').1.rows =
        db'.rows ++
          [⟨db'.nextId, u, c, m, some (astimezoneUTC lo t), if d then 1 else 0⟩] := by
  constructor
  · simp only [on_submit, hp]
    rw [if_pos hpast]
  · intro lo u c m t d db'
    rfl

/-- Witness for C2 (amended): a concrete past-time request is rejected with
the store untouched. -/
theorem C2_witness :
    on_submit (fun _ _ => none) (fun _ => some ⟨50, some 0⟩) 0 100 100 7 8
      "d" "m" "yes" init_db ⟨[], 0⟩ = (.pastTime, init_db, ⟨[], 0⟩) ∧
    ∀ (lo u c : Int) (m : String) (t : PyDateTime) (d : Bool) (db' : ReminderDB),
      (add_reminder lo u c m t d db').1.rows =
        db'.rows ++
          [⟨db'.nextId, u, c, m, some (astimezoneUTC lo t), if d then 1 else 0⟩] :=
  C2_handler_rejects_past (fun _ _ => none) (fun _ => some ⟨50, some 0⟩)
    0 100 100 7 8 "d" "m" "yes" init_db ⟨[], 0⟩ ⟨50, some 0⟩
    (by decide) (by decide)

/-- C3 counterexample: with a host-local offset of UTC+2 (7200 s), a naive
(`tz`-less) input with wall reading 0 is persisted by `add_reminder` with
instant −7200 — it was interpreted as LOCAL time — whereas interpreting the
ambiguous input as UTC (`replace(tzinfo=utc)`) denotes instant 0. -/
theorem C3_counterexample :
    (add_reminder 7200 1 2 "m" ⟨0, none⟩ true init_db).1.rows =
      [⟨1, 1, 2, "m", some ⟨-7200, some 0⟩, 1⟩] ∧
    PyDateTime.instant ⟨-7200, some 0⟩ ≠
      PyDateTime.instant (replaceUTC ⟨0, none⟩) :=
  ⟨rfl, by norm_num [PyDateTime.instant, replaceUTC]⟩

/-- C3 (amended): every reminder accepted by the store is persisted with
`fire_at` as an ISO-8601 string carrying UTC offset zero; input with an
explicit offset is converted to UTC preserving its instant; but input
carrying no timezone information is interpreted by the store as the host's
LOCAL time (offset `localOff`), not as UTC, before being stored. -/
theorem C3_stored_fire_at_utc (localOff u c : Int) (m : String)
    (t : PyDateTime) (d : Bool) (db : ReminderDB) :
    (∀ r ∈ (add_reminder localOff u c m t d db).1.rows,
      r ∈ db.rows ∨ r.remind_time = some (astimezoneUTC localOff t)) ∧
    (astimezoneUTC localOff t).tz = some 0 ∧
    (∀ o, t.tz = some o → (astimezoneUTC localOff t).instant = t.instant) ∧
    (t.tz = none → (astimezoneUTC localOff t).instant = t.wall - localOff) := by
  refine ⟨?_, ?_, ?_, ?_⟩
  · intro r hrr
    simp only [add_reminder, List.mem_append, List.mem_singleton] at hrr
    rcases hrr with h | h
    · exact Or.inl h
    · exact Or.inr (by rw [h])
  · cases ht : t.tz <;> simp [astimezoneUTC, ht]
  · intro o ho
    simp [astimezoneUTC, ho, PyDateTime.instant]
  · intro ho
    simp [astimezoneUTC, ho, PyDateTime.instant]

/-- Witness for C3 (amended) at a concrete insertion. -/
theorem C3_witness :
    (∀ r ∈ (add_reminder 7200 1 2 "m" (⟨3600, some 3600⟩ : PyDateTime) true
        init_db).1.rows,
      r ∈ init_db.rows ∨
        r.remind_time = some (astimezoneUTC 7200 ⟨3600, some 3600⟩)) ∧
    (astimezoneUTC 7200 (⟨3600, some 3600⟩ : PyDateTime)).tz = some 0 ∧
    (∀ o, (⟨3600, some 3600⟩ : PyDateTime).tz = some o →
      (astimezoneUTC 7200 ⟨3600, some 3600⟩).instant =
        (⟨3600, some 3600⟩ : PyDateTime).instant) ∧
    ((⟨3600, some 3600⟩ : PyDateTime).tz = none →
      (astimezoneUTC 7200 ⟨3600, some 3600⟩).instant = 3600 - 7200) :=
  C3_stored_fire_at_utc 7200 1 2 "m" ⟨3600, some 3600⟩ true init_db

/-- C4: when an owner already has a pending reminder whose stored `fire_at`
falls on today's UTC calendar day (and the owner's stored rows are
well-formed ISO strings, as every row written by `add_reminder` is), a
second creation request by that owner — itself for today's UTC day —
is rejected by the handler's once-per-day check (`alreadyToday`,
surfaced as the validation failure message) and nothing is persisted or
scheduled; the check runs only at creation time. -/
theorem C4_one_reminder_per_owner_per_day (strp : String → String → Option Int)
    (fb : String → Option PyDateTime) (localOff now1 now2 uid chan : Int)
    (dv mv dmv : String) (db : ReminderDB) (st : BotState)
    (rt : PyDateTime) (r : Row) (dt : PyDateTime)
    (hp : parse_datetime strp fb (pyStrip dv) = some rt)
    (hfut : (nowUTC now1).instant < rt.instant)
    (hall : ∀ r' ∈ db.rows, r'.user_id = uid → r'.remind_time ≠ none)
    (hr : r ∈ db.rows) (hu : r.user_id = uid)
    (hrt : r.remind_time = some dt)
    (htoday : dt.pyDate = (nowUTC now2).pyDate)
    (hsame : rt.pyDate = (nowUTC now2).pyDate) :
    on_submit strp fb localOff now1 now2 uid chan dv mv dmv db st
      = (.alreadyToday, db, st) := by
  obtain ⟨l, hl, hne⟩ :=
    rowsTodayE_ne_nil uid (nowUTC now2).pyDate db.rows hall r hr hu dt hrt htoday
  simp only [on_submit, hp]
  rw [if_neg (not_le.mpr hfut)]
  rw [hl]
  simp [hne]

/-- Witness for C4: a concrete second same-day request is rejected. -/
theorem C4_witness :
    on_submit (fun _ _ => none) (fun _ => some ⟨50000, some 0⟩) 0 10 10 7 8
      "d" "m" "no" ⟨[⟨1, 7, 8, "m", some ⟨100, some 0⟩, 1⟩], 2⟩ ⟨[], 0⟩
      = (.alreadyToday, ⟨[⟨1, 7, 8, "m", some ⟨100, some 0⟩, 1⟩], 2⟩, ⟨[], 0⟩) :=
  C4_one_reminder_per_owner_per_day (fun _ _ => none)
    (fun _ => some ⟨50000, some 0⟩) 0 10 10 7 8 "d" "m" "no"
    ⟨[⟨1, 7, 8, "m", some ⟨100, some 0⟩, 1⟩], 2⟩ ⟨[], 0⟩ ⟨50000, some 0⟩
    ⟨1, 7, 8, "m", some ⟨100, some 0⟩, 1⟩ ⟨100, some 0⟩
    (by decide) (by decide) (by decide) (by simp) rfl rfl (by decide) (by decide)


/-! ### Worker lemmas (attbot.py:171-232) -/

theorem popKey_not_mem (rid : Nat) (st : BotState) :
    ∀ p ∈ (popKey rid st).registry, p.1 ≠ rid := by
  intro p hp
  simp only [popKey, List.mem_filter] at hp
  simpa using hp.2

theorem popKey_keeps (rid : Nat) (st : BotState) :
    ∀ p ∈ st.registry, p.1 ≠ rid → p ∈ (popKey rid st).registry := by
  intro p hp hne
  simp only [popKey, List.mem_filter]
  exact ⟨hp, by simpa using hne⟩

/-- C1 counterexample: a concrete worker whose send raises
(`env.sendOk = false`) ends with the failure caught and logged
(`transportError`, not a crash), but its reminder row is NOT deleted from
the store — `delete_reminder` at attbot.py:225 sits after the send inside
the same `try`, so the exception skips it.  This refutes "the reminder row
is still deleted". -/
theorem C1_counterexample :
    (reminder_task 1
        ⟨fun _ => 500, none, ⟨[⟨3, 7, 8, "m", some ⟨400, some 0⟩, 1⟩], 4⟩,
          true, true, false⟩ 3 ⟨7, 8, "m", some ⟨400, some 0⟩, 1⟩
        ⟨[(3, ⟨0, ⟨7, 8, "m", some ⟨400, some 0⟩, 1⟩⟩)], 1⟩).outcome
      = .transportError ∧
    (reminder_task 1
        ⟨fun _ => 500, none, ⟨[⟨3, 7, 8, "m", some ⟨400, some 0⟩, 1⟩], 4⟩,
          true, true, false⟩ 3 ⟨7, 8, "m", some ⟨400, some 0⟩, 1⟩
        ⟨[(3, ⟨0, ⟨7, 8, "m", some ⟨400, some 0⟩, 1⟩⟩)], 1⟩).db.rows
      = [⟨3, 7, 8, "m", some ⟨400, some 0⟩, 1⟩] := by
  constructor
  · rfl
  · rfl

/-- C1 (amended): for every worker that reaches the delivery step, a
delivery-transport failure — the user fetch raising, or an attempted
direct-message or channel send raising — is caught by the worker's outer
exception handler: logged and swallowed, never propagated, and the worker
deregisters its id from the live-task registry; but the reminder row is NOT
deleted from the durable store (the delete only runs after a completed
send), and since the row remains persisted, the next startup reconciliation
(running over this store from a fresh registry) schedules a worker for its
id again. -/
theorem C1_transport_failure_swallowed_row_kept (fuel : Nat) (env : TaskEnv)
    (rid : Nat) (ps : WorkerParams) (st : BotState) (rt : PyDateTime) (i : Nat)
    (hparse : parse_remind_time ps.remind_time = some rt)
    (hloop : wait_loop env.cancelAt env.clock rt.instant fuel 0 = .woke i)
    (hrow : (get_reminders env.dbAtWake).any (fun r => r.id == rid) = true)
    (hfresh : ¬ (nowUTC (env.clock (i + 1))).instant < rt.instant - 2)
    (hfail : env.fetchUserOk = false ∨
      (env.sendOk = false ∧ (ps.dm ≠ 0 ∨ env.channelFound = true))) :
    reminder_task fuel env rid ps st
      = ⟨.transportError, env.dbAtWake, popKey rid st⟩ ∧
    (∀ p ∈ (popKey rid st).registry, p.1 ≠ rid) ∧
    (∀ c : Nat,
      hasKey (load_reminders env.dbAtWake ⟨[], c⟩).registry rid = true) := by
  refine ⟨?_, popKey_not_mem rid st, ?_⟩
  · simp only [reminder_task, hparse, hloop]
    rw [if_neg (by simp [hrow])]
    rw [if_neg hfresh]
    cases hfu : env.fetchUserOk with
    | false => rw [if_pos (by simp [hfu])]
    | true =>
      rw [if_neg (by simp [hfu])]
      obtain ⟨hsend, hattempt⟩ :
          env.sendOk = false ∧ (ps.dm ≠ 0 ∨ env.channelFound = true) := by
        rcases hfail with h | h
        · rw [hfu] at h
          cases h
        · exact h
      by_cases hdm : ps.dm ≠ 0
      · rw [if_pos hdm]
        simp [hsend]
      · rw [if_neg hdm]
        have hch : env.channelFound = true := by
          rcases hattempt with h | h
          · exact absurd h hdm
          · exact h
        simp [hch, hsend]
  · intro c
    obtain ⟨r, hrmem, hbeq⟩ := List.any_eq_true.mp hrow
    have hrmem' : r ∈ env.dbAtWake.rows := hrmem
    have hrid : r.id = rid := by simpa using hbeq
    have hload := hasKey_load_of_mem env.dbAtWake ⟨[], c⟩ r hrmem'
    rw [hrid] at hload
    exact hload

/-- Witness for C1 (amended): a concrete worker whose `bot.fetch_user`
raises ends with the failure swallowed, the row still stored, and a fresh
reconciliation scheduling id 3 again. -/
theorem C1_witness :
    reminder_task 1
        ⟨fun _ => 500, none, ⟨[⟨3, 7, 8, "m", some ⟨400, some 0⟩, 1⟩], 4⟩,
          false, true, true⟩ 3 ⟨7, 8, "m", some ⟨400, some 0⟩, 1⟩
        ⟨[(3, ⟨0, ⟨7, 8, "m", some ⟨400, some 0⟩, 1⟩⟩)], 1⟩
      = ⟨.transportError, ⟨[⟨3, 7, 8, "m", some ⟨400, some 0⟩, 1⟩], 4⟩,
          popKey 3 ⟨[(3, ⟨0, ⟨7, 8, "m", some ⟨400, some 0⟩, 1⟩⟩)], 1⟩⟩ ∧
    (∀ p ∈ (popKey 3 ⟨[(3, ⟨0, ⟨7, 8, "m", some ⟨400, some 0⟩, 1⟩⟩)], 1⟩).registry,
      p.1 ≠ 3) ∧
    (∀ c : Nat,
      hasKey (load_reminders ⟨[⟨3, 7, 8, "m", some ⟨400, some 0⟩, 1⟩], 4⟩
        ⟨[], c⟩).registry 3 = true) :=
  C1_transport_failure_swallowed_row_kept 1
    ⟨fun _ => 500, none, ⟨[⟨3, 7, 8, "m", some ⟨400, some 0⟩, 1⟩], 4⟩,
      false, true, true⟩ 3 ⟨7, 8, "m", some ⟨400, some 0⟩, 1⟩
    ⟨[(3, ⟨0, ⟨7, 8, "m", some ⟨400, some 0⟩, 1⟩⟩)], 1⟩ ⟨400, some 0⟩ 0
    rfl rfl rfl (by decide) (Or.inl rfl)

/-- C6: a worker that wakes (`remaining ≤ 0`) and finds its row no longer
in the durable store terminates silently: the outcome is `rowGone` (no
delivery is performed), the store is left untouched (nothing deleted), and
the `finally` block leaves no residual registry entry for its id. -/
theorem C6_missing_row_terminates_silently (fuel : Nat) (env : TaskEnv)
    (rid : Nat) (ps : WorkerParams) (st : BotState) (rt : PyDateTime) (i : Nat)
    (hparse : parse_remind_time ps.remind_time = some rt)
    (hloop : wait_loop env.cancelAt env.clock rt.instant fuel 0 = .woke i)
    (hgone : (get_reminders env.dbAtWake).any (fun r => r.id == rid) = false) :
    reminder_task fuel env rid ps st
      = ⟨.rowGone, env.dbAtWake, popKey rid st⟩ ∧
    ∀ p ∈ (popKey rid st).registry, p.1 ≠ rid := by
  refine ⟨?_, popKey_not_mem rid st⟩
  simp only [reminder_task, hparse, hloop]
  rw [if_pos (by simp [hgone])]

/-- Witness for C6: a concrete worker waking over an emptied store. -/
theorem C6_witness :
    reminder_task 1 ⟨fun _ => 500, none, ⟨[], 4⟩, true, true, true⟩ 3
        ⟨7, 8, "m", some ⟨400, some 0⟩, 1⟩
        ⟨[(3, ⟨0, ⟨7, 8, "m", some ⟨400, some 0⟩, 1⟩⟩)], 1⟩
      = ⟨.rowGone, ⟨[], 4⟩,
          popKey 3 ⟨[(3, ⟨0, ⟨7, 8, "m", some ⟨400, some 0⟩, 1⟩⟩)], 1⟩⟩ ∧
    ∀ p ∈ (popKey 3 ⟨[(3, ⟨0, ⟨7, 8, "m", some ⟨400, some 0⟩, 1⟩⟩)], 1⟩).registry,
      p.1 ≠ 3 :=
  C6_missing_row_terminates_silently 1
    ⟨fun _ => 500, none, ⟨[], 4⟩, true, true, true⟩ 3
    ⟨7, 8, "m", some ⟨400, some 0⟩, 1⟩
    ⟨[(3, ⟨0, ⟨7, 8, "m", some ⟨400, some 0⟩, 1⟩⟩)], 1⟩ ⟨400, some 0⟩ 0
    rfl rfl rfl

/-- C8: a worker that wakes and finds its row still present, but whose
fresh clock reading is still more than 2 seconds earlier than `fire_at`
(the clock-skew staleness guard at attbot.py:209-211), terminates with
outcome `stale`: it delivers nothing rather than delivering early, and the
store is untouched. -/
theorem C8_staleness_guard_no_early_delivery (fuel : Nat) (env : TaskEnv)
    (rid : Nat) (ps : WorkerParams) (st : BotState) (rt : PyDateTime) (i : Nat)
    (hparse : parse_remind_time ps.remind_time = some rt)
    (hloop : wait_loop env.cancelAt env.clock rt.instant fuel 0 = .woke i)
    (hrow : (get_reminders env.dbAtWake).any (fun r => r.id == rid) = true)
    (hstale : (nowUTC (env.clock (i + 1))).instant < rt.instant - 2) :
    reminder_task fuel env rid ps st
      = ⟨.stale, env.dbAtWake, popKey rid st⟩ := by
  simp only [reminder_task, hparse, hloop]
  rw [if_neg (by simp [hrow])]
  rw [if_pos hstale]

/-- Witness for C8: the first reading jumps to the fire instant, the
post-wake reading falls back far before it (clock skew); no delivery. -/
theorem C8_witness :
    reminder_task 1
        ⟨fun i => if i = 0 then 10000 else 0, none,
          ⟨[⟨3, 7, 8, "m", some ⟨10000, some 0⟩, 1⟩], 4⟩, true, true, true⟩ 3
        ⟨7, 8, "m", some ⟨10000, some 0⟩, 1⟩
        ⟨[(3, ⟨0, ⟨7, 8, "m", some ⟨10000, some 0⟩, 1⟩⟩)], 1⟩
      = ⟨.stale, ⟨[⟨3, 7, 8, "m", some ⟨10000, some 0⟩, 1⟩], 4⟩,
          popKey 3 ⟨[(3, ⟨0, ⟨7, 8, "m", some ⟨10000, some 0⟩, 1⟩⟩)], 1⟩⟩ :=
  C8_staleness_guard_no_early_delivery 1
    ⟨fun i => if i = 0 then 10000 else 0, none,
      ⟨[⟨3, 7, 8, "m", some ⟨10000, some 0⟩, 1⟩], 4⟩, true, true, true⟩ 3
    ⟨7, 8, "m", some ⟨10000, some 0⟩, 1⟩
    ⟨[(3, ⟨0, ⟨7, 8, "m", some ⟨10000, some 0⟩, 1⟩⟩)], 1⟩ ⟨10000, some 0⟩ 0
    rfl rfl (by decide) (by decide)

/-- C10: a worker whose persisted `remind_time` text cannot be parsed
terminates at the parse step (`parseFailed`: the exception is caught and
logged, not propagated, so the worker pool is untouched), delivers nothing,
deletes nothing from the store, and the `finally` block still removes its
id from the live-task registry while every other worker's entry is kept. -/
theorem C10_corrupted_time_caught (fuel : Nat) (env : TaskEnv) (rid : Nat)
    (ps : WorkerParams) (st : BotState) (h : ps.remind_time = none) :
    reminder_task fuel env rid ps st
      = ⟨.parseFailed, env.dbAtWake, popKey rid st⟩ ∧
    (∀ p ∈ (popKey rid st).registry, p.1 ≠ rid) ∧
    (∀ p ∈ st.registry, p.1 ≠ rid → p ∈ (popKey rid st).registry) := by
  refine ⟨?_, popKey_not_mem rid st, popKey_keeps rid st⟩
  simp only [reminder_task, h, parse_remind_time]

/-- Witness for C10: a corrupted stored time; the sibling worker's entry
(id 5) survives the pop. -/
theorem C10_witness :
    reminder_task 1 ⟨fun _ => 0, none, ⟨[], 4⟩, true, true, true⟩ 3
        ⟨7, 8, "m", none, 1⟩
        ⟨[(3, ⟨0, ⟨7, 8, "m", none, 1⟩⟩), (5, ⟨1, ⟨9, 8, "n", none, 0⟩⟩)], 2⟩
      = ⟨.parseFailed, ⟨[], 4⟩,
          popKey 3 ⟨[(3, ⟨0, ⟨7, 8, "m", none, 1⟩⟩),
            (5, ⟨1, ⟨9, 8, "n", none, 0⟩⟩)], 2⟩⟩ ∧
    (∀ p ∈ (popKey 3 ⟨[(3, ⟨0, ⟨7, 8, "m", none, 1⟩⟩),
        (5, ⟨1, ⟨9, 8, "n", none, 0⟩⟩)], 2⟩).registry, p.1 ≠ 3) ∧
    (∀ p ∈ ([(3, (⟨0, ⟨7, 8, "m", none, 1⟩⟩ : Task)),
        (5, ⟨1, ⟨9, 8, "n", none, 0⟩⟩)] : List (Nat × Task)), p.1 ≠ 3 →
      p ∈ (popKey 3 ⟨[(3, ⟨0, ⟨7, 8, "m", none, 1⟩⟩),
        (5, ⟨1, ⟨9, 8, "n", none, 0⟩⟩)], 2⟩).registry) :=
  C10_corrupted_time_caught 1 ⟨fun _ => 0, none, ⟨[], 4⟩, true, true, true⟩ 3
    ⟨7, 8, "m", none, 1⟩
    ⟨[(3, ⟨0, ⟨7, 8, "m", none, 1⟩⟩), (5, ⟨1, ⟨9, 8, "n", none, 0⟩⟩)], 2⟩ rfl

end ScannerBot
